import Mathlib

/-!
# Verification of the voice-chat echo/interruption filter

Shallow embedding of `src/main.py` (a FastAPI voice-assistant relay).
Texts (Python `str` values) are modelled as `List Char`; the three external
service calls (speech-to-text, chat completion, speech synthesis) are inputs
of the model, each an `Except` carrying either the service's result or the
message of the exception it raised.  The session context dictionary is an
association list from session identifiers to the last assistant reply.
-/

namespace VoiceChat

/-- Python strings are sequences of unicode scalar values. -/
abbrev Text := List Char

/-- Model of Python `s.lower()` applied characterwise (ASCII case mapping;
the repository compares against the ASCII literal `"true"` and normalizes
transcribed text, so the basic-latin mapping is the relevant fragment). -/
def pyLower (s : Text) : Text := s.map Char.toLower

/-- Model of Python `s.strip()`: drop whitespace from both ends. -/
def pyStrip (s : Text) : Text :=
  ((s.dropWhile Char.isWhitespace).reverse.dropWhile Char.isWhitespace).reverse

/-- `src/main.py` lines 31-33, `_normalize_text`: lower-case, then delete
every whitespace character. -/
def normalize_text (s : Text) : Text :=
  (s.map Char.toLower).filter (fun ch => !ch.isWhitespace)

/-- The session context dictionary (`src/main.py` line 28): per session
identifier, the text of the last assistant reply. -/
abbrev Store := List (Text × Text)

/-- Read access to the session context as the endpoint performs it
(`src/main.py` lines 79-80 and 111-113): the guard `session_id and
session_id in session_context` makes an empty identifier behave as absent. -/
def ctxGet (st : Store) (session_id : Text) : Option Text :=
  if session_id = [] then none else List.lookup session_id st

/-- Write access to the session context as the endpoint performs it
(`src/main.py` lines 129-130): `if session_id: session_context[...] = text`,
a dictionary overwrite that is a no-op on the empty identifier. -/
def ctxPut (st : Store) (session_id text : Text) : Store :=
  if session_id = [] then st
  else (session_id, text) :: st.eraseP (fun p => p.1 == session_id)

/-- `src/main.py` lines 86-88: `min(len(prev_norm), len(user_norm)) /
max(len(prev_norm), len(user_norm)) > 0.7`, computed here in exact rational
arithmetic, cross-multiplied over the positive denominators so the kernel
can evaluate it: `min/max > 7/10` iff `7 * max < 10 * min` (the lemma
`ratio_gt_iff` below records the equivalence).  Python evaluates the ratio
in double precision; the two agree for every pair of lengths a transcript
can have, the first disagreement needing strings of more than 10^15
characters. -/
def len_ratio_gt (m n : Nat) : Bool :=
  decide (7 * max m n < 10 * min m n)

/-- `src/main.py` lines 86-92, the echo similarity test on the two normalized
strings: length ratio above 0.7 and mutual substring containment
(`user_norm in prev_norm or prev_norm in user_norm`). -/
def echo_pred (user_norm prev_norm : Text) : Bool :=
  len_ratio_gt prev_norm.length user_norm.length
    && decide (user_norm <:+: prev_norm ∨ prev_norm <:+: user_norm)

/-- `src/main.py` lines 69-100, the interruption filter's decision: `true`
means REJECTED (the endpoint returns empty assistant text and audio),
`false` means ACCEPTED (the request proceeds to reply generation).
Applied only when `is_interruption` parsed to true. -/
def filter_reject (st : Store) (session_id user_text : Text) : Bool :=
  let user_text_stripped := pyStrip user_text
  if user_text_stripped = [] ∨ user_text_stripped.length < 3 then
    true
  else
    match ctxGet st session_id with
    | none => false
    | some prev_assistant =>
      let prev_norm := normalize_text prev_assistant
      let user_norm := normalize_text user_text_stripped
      if prev_norm ≠ [] ∧ user_norm ≠ [] then echo_pred user_norm prev_norm
      else false

/-- An HTTP error response (`HTTPException` in `src/main.py`). -/
structure HTTPError where
  status : Nat
  detail : Text
deriving DecidableEq

/-- The success payload of `/api/voice_chat` (`src/main.py` lines 73-77,
96-100, 153-157).  `audio_base64` holds the base64-encoded synthesized
audio; the encoding itself is transport plumbing outside the core. -/
structure VoiceChatResponse where
  user_text : Text
  assistant_text : Text
  audio_base64 : Text
deriving DecidableEq

/-- `src/main.py` lines 102-157, the part of the request after the filter:
call the chat completion (`llmRes`), store its reply for the session, call
speech synthesis (`ttsRes`), return the three-field payload.  `ttsRes`
carries the synthesized audio already in its base64 transport form. -/
def generation (st : Store) (user_text : Text) (llmRes ttsRes : Except Text Text)
    (session_id : Text) : Except HTTPError VoiceChatResponse × Store :=
  match llmRes with
  | .error e => (.error ⟨500, ("LLM failed: ").data ++ e⟩, st)
  | .ok assistant_text =>
    let st1 := ctxPut st session_id assistant_text
    match ttsRes with
    | .error e => (.error ⟨500, ("TTS failed: ").data ++ e⟩, st1)
    | .ok audio_base64 => (.ok ⟨user_text, assistant_text, audio_base64⟩, st1)

/-- `src/main.py` lines 50-157, the `/api/voice_chat` handler from the
transcription call onward.  `sttRes` is the transcription outcome:
`.error e` a raised exception, `.ok none` a result without a `text`
attribute, `.ok (some u)` a transcript `u` (possibly empty, which the
handler rejects as `STT result has no text`).  Returns the response
together with the session context left behind by the request. -/
def voice_chat (st : Store) (sttRes : Except Text (Option Text))
    (llmRes ttsRes : Except Text Text) (is_interruption session_id : Text) :
    Except HTTPError VoiceChatResponse × Store :=
  match sttRes with
  | .error e => (.error ⟨500, ("STT failed: ").data ++ e⟩, st)
  | .ok none => (.error ⟨500, ("STT result has no text").data⟩, st)
  | .ok (some user_text) =>
    if user_text = [] then (.error ⟨500, ("STT result has no text").data⟩, st)
    else if pyLower is_interruption = ("true").data
            ∧ filter_reject st session_id user_text = true then
      (.ok ⟨user_text, [], []⟩, st)
    else
      generation st user_text llmRes ttsRes session_id

/-! ## Helper lemmas -/

theorem toNat_ofNat_valid {n : Nat} (h : n < 55296) : (Char.ofNat n).toNat = n := by
  rw [Char.ofNat, dif_pos (Or.inl h)]
  rfl

theorem toLower_idem (c : Char) : c.toLower.toLower = c.toLower := by
  by_cases h : c.toNat ≥ 65 ∧ c.toNat ≤ 90
  · have h1 : c.toLower = Char.ofNat (c.toNat + 32) := by
      rw [Char.toLower]; exact if_pos h
    have h2 : (Char.ofNat (c.toNat + 32)).toNat = c.toNat + 32 :=
      toNat_ofNat_valid (by omega)
    rw [h1, Char.toLower, if_neg]
    rw [h2]; omega
  · have h1 : c.toLower = c := by rw [Char.toLower]; exact if_neg h
    rw [h1, h1]

theorem ratio_gt_iff (m n : Nat) (hm : 0 < m) :
    ((7 : ℚ) / 10 < (min m n : ℚ) / (max m n : ℚ)) ↔ 7 * max m n < 10 * min m n := by
  have hmax : (0 : ℚ) < (max m n : ℚ) := by
    have : 0 < max m n := lt_max_of_lt_left hm
    exact_mod_cast this
  rw [div_lt_div_iff₀ (by norm_num) hmax]
  constructor
  · intro h
    have : (7 * max m n : ℚ) < (10 * min m n : ℚ) := by push_cast; linarith
    exact_mod_cast this
  · intro h
    have : (7 * max m n : ℚ) < (10 * min m n : ℚ) := by exact_mod_cast h
    push_cast at this
    linarith

theorem lookup_eq_none_of_not_mem (sid : Text) (st : Store)
    (h : sid ∉ st.map Prod.fst) : List.lookup sid st = none := by
  induction st with
  | nil => rfl
  | cons p rest ih =>
    simp only [List.map_cons, List.mem_cons] at h
    push_neg at h
    simp only [List.lookup]
    rw [beq_false_of_ne h.1]
    exact ih h.2

theorem ctxGet_ctxPut (st : Store) (sid t : Text) (h : sid ≠ []) :
    ctxGet (ctxPut st sid t) sid = some t := by
  simp only [ctxGet, ctxPut, if_neg h]
  simp [List.lookup]

theorem voice_chat_ok (st : Store) (u : Text) (llm tts : Except Text Text)
    (flag sid : Text) (hu : u ≠ []) :
    voice_chat st (.ok (some u)) llm tts flag sid =
      if pyLower flag = ("true").data ∧ filter_reject st sid u = true then
        (.ok ⟨u, [], []⟩, st)
      else generation st u llm tts sid := by
  simp only [voice_chat, if_neg hu]

theorem filter_reject_of_short (st : Store) (sid u : Text)
    (hshort : pyStrip u = [] ∨ (pyStrip u).length < 3) :
    filter_reject st sid u = true := by
  simp only [filter_reject]
  rw [if_pos hshort]

theorem filter_reject_echo_case (st : Store) (sid u prev : Text)
    (hlen : 3 ≤ (pyStrip u).length)
    (hprev : ctxGet st sid = some prev)
    (hpn : normalize_text prev ≠ [])
    (hun : normalize_text (pyStrip u) ≠ []) :
    filter_reject st sid u = echo_pred (normalize_text (pyStrip u)) (normalize_text prev) := by
  have hstrip : ¬(pyStrip u = [] ∨ (pyStrip u).length < 3) := by
    rintro (h | h)
    · rw [h] at hlen; simp at hlen
    · omega
  simp only [filter_reject]
  rw [if_neg hstrip, hprev]
  exact if_pos ⟨hpn, hun⟩

/-! ## Claim theorems -/

/-- C1: for an interruption utterance whose trimmed text has length at least
3, when a prior reply is stored for the non-empty session identifier and
both normalized strings are non-empty, the filter classifies the utterance
as REJECTED (empty assistant text and audio) if and only if
`min(len(user_norm), len(prev_norm)) / max(len(user_norm), len(prev_norm)) > 0.7`
and one normalized string is a substring of the other; otherwise the
utterance is ACCEPTED and proceeds to reply generation. -/
theorem interruption_echo_classification
    (st : Store) (flag sid u prev : Text) (llm tts : Except Text Text)
    (hflag : pyLower flag = ("true").data)
    (hlen : 3 ≤ (pyStrip u).length)
    (hsid : sid ≠ [])
    (hprev : ctxGet st sid = some prev)
    (hpn : normalize_text prev ≠ [])
    (hun : normalize_text (pyStrip u) ≠ []) :
    (filter_reject st sid u = true ↔
      ((7 : ℚ) / 10 <
          (min (normalize_text prev).length (normalize_text (pyStrip u)).length : ℚ) /
          (max (normalize_text prev).length (normalize_text (pyStrip u)).length : ℚ)
        ∧ (normalize_text (pyStrip u) <:+: normalize_text prev
            ∨ normalize_text prev <:+: normalize_text (pyStrip u))))
    ∧ (filter_reject st sid u = true →
        voice_chat st (.ok (some u)) llm tts flag sid = (.ok ⟨u, [], []⟩, st))
    ∧ (filter_reject st sid u = false →
        voice_chat st (.ok (some u)) llm tts flag sid = generation st u llm tts sid) := by
  have hu : u ≠ [] := by
    intro h
    rw [h] at hlen
    simp [pyStrip] at hlen
  have hfr := filter_reject_echo_case st sid u prev hlen hprev hpn hun
  refine ⟨?_, ?_, ?_⟩
  · rw [hfr]
    simp only [echo_pred, len_ratio_gt, Bool.and_eq_true, decide_eq_true_eq]
    rw [ratio_gt_iff _ _ (List.length_pos.mpr hpn)]
  · intro h
    rw [voice_chat_ok st u llm tts flag sid hu, if_pos ⟨hflag, h⟩]
  · intro h
    rw [voice_chat_ok st u llm tts flag sid hu, if_neg]
    rintro ⟨-, h2⟩
    rw [h] at h2
    exact Bool.false_ne_true h2

/-- Witness of C1 at a concrete rejected echo: prior reply "I like cats",
utterance "i like cats" in session "s". -/
theorem interruption_echo_classification_witness :
    (7 : ℚ) / 10 <
        (min (normalize_text (("I like cats").data)).length
            (normalize_text (pyStrip (("i like cats").data))).length : ℚ) /
        (max (normalize_text (("I like cats").data)).length
            (normalize_text (pyStrip (("i like cats").data))).length : ℚ)
      ∧ (normalize_text (pyStrip (("i like cats").data)) <:+:
            normalize_text (("I like cats").data)
          ∨ normalize_text (("I like cats").data) <:+:
            normalize_text (pyStrip (("i like cats").data))) :=
  (interruption_echo_classification
      [((("s").data), (("I like cats").data))] (("true").data) (("s").data)
      (("i like cats").data) (("I like cats").data)
      (.ok (("r").data)) (.ok (("a").data))
      (by decide) (by decide) (by decide) (by decide) (by decide) (by decide)).1.mp
    (by decide)

/-- C2: an interruption utterance whose trimmed text is empty or shorter
than 3 characters is REJECTED, regardless of the session identifier and of
the session context store. -/
theorem tooshort_reject (st : Store) (flag sid u : Text) (llm tts : Except Text Text)
    (hflag : pyLower flag = ("true").data)
    (hu : u ≠ [])
    (hshort : pyStrip u = [] ∨ (pyStrip u).length < 3) :
    filter_reject st sid u = true ∧
      voice_chat st (.ok (some u)) llm tts flag sid = (.ok ⟨u, [], []⟩, st) := by
  have hfr : filter_reject st sid u = true := filter_reject_of_short st sid u hshort
  refine ⟨hfr, ?_⟩
  rw [voice_chat_ok st u llm tts flag sid hu, if_pos ⟨hflag, hfr⟩]

/-- Witness of C2 at the utterance "ok" (2 characters, scenario A). -/
theorem tooshort_reject_witness :
    voice_chat [] (.ok (some (("ok").data))) (.ok (("r").data)) (.ok (("a").data))
        (("true").data) (("sess").data)
      = (.ok ⟨("ok").data, [], []⟩, []) :=
  (tooshort_reject [] (("true").data) (("sess").data) (("ok").data)
      (.ok (("r").data)) (.ok (("a").data))
      (by decide) (by decide) (by decide)).2

/-- C3: a non-interruption utterance is always ACCEPTED: the request
proceeds to reply generation unfiltered, for any utterance text, session
identifier and store. -/
theorem noninterruption_accepts (st : Store) (flag sid u : Text)
    (llm tts : Except Text Text)
    (hflag : pyLower flag ≠ ("true").data) (hu : u ≠ []) :
    voice_chat st (.ok (some u)) llm tts flag sid = generation st u llm tts sid := by
  rw [voice_chat_ok st u llm tts flag sid hu, if_neg]
  rintro ⟨h1, -⟩
  exact hflag h1

/-- Witness of C3 with the flag "false" and a too-short, echo-identical
utterance that would have been rejected were it an interruption. -/
theorem noninterruption_accepts_witness :
    voice_chat [((("s").data), (("hi").data))] (.ok (some (("hi").data)))
        (.ok (("r").data)) (.ok (("a").data)) (("false").data) (("s").data)
      = generation [((("s").data), (("hi").data))] (("hi").data)
          (.ok (("r").data)) (.ok (("a").data)) (("s").data) :=
  noninterruption_accepts [((("s").data), (("hi").data))] (("false").data)
    (("s").data) (("hi").data) (.ok (("r").data)) (.ok (("a").data))
    (by decide) (by decide)

/-- C4: every turn rejected by the filter returns a success result (not an
error) whose `user_text` is the transcript heard and whose `assistant_text`
and `audio_base64` are both empty. -/
theorem filtered_turn_success (st : Store) (flag sid u : Text)
    (llm tts : Except Text Text)
    (hflag : pyLower flag = ("true").data) (hu : u ≠ [])
    (hrej : filter_reject st sid u = true) :
    voice_chat st (.ok (some u)) llm tts flag sid = (.ok ⟨u, [], []⟩, st) := by
  rw [voice_chat_ok st u llm tts flag sid hu, if_pos ⟨hflag, hrej⟩]

/-- Witness of C4 at a concrete echo rejection: prior reply "sure thing",
utterance "Sure thing". -/
theorem filtered_turn_success_witness :
    voice_chat [((("s").data), (("sure thing").data))]
        (.ok (some (("Sure thing").data)))
        (.ok (("r").data)) (.ok (("a").data)) (("true").data) (("s").data)
      = (.ok ⟨("Sure thing").data, [], []⟩, [((("s").data), (("sure thing").data))]) :=
  filtered_turn_success [((("s").data), (("sure thing").data))] (("true").data)
    (("s").data) (("Sure thing").data) (.ok (("r").data)) (.ok (("a").data))
    (by decide) (by decide) (by decide)

/-- C5: the session context store satisfies its contract: `get` after
`put(id, t)` on a non-empty `id` returns exactly `t`; `get` on an
identifier never stored, or on the empty identifier, is absent; `put` on
the empty identifier leaves the store unchanged. -/
theorem store_contract :
    (∀ (st : Store) (sid t : Text), sid ≠ [] → ctxGet (ctxPut st sid t) sid = some t)
    ∧ (∀ (st : Store) (sid : Text), sid ∉ st.map Prod.fst → ctxGet st sid = none)
    ∧ (∀ st : Store, ctxGet st [] = none)
    ∧ (∀ (st : Store) (t : Text), ctxPut st [] t = st) := by
  refine ⟨fun st sid t h => ctxGet_ctxPut st sid t h, ?_, ?_, ?_⟩
  · intro st sid h
    by_cases hsid : sid = []
    · simp [ctxGet, hsid]
    · simp only [ctxGet, if_neg hsid]
      exact lookup_eq_none_of_not_mem sid st h
  · intro st
    simp [ctxGet]
  · intro st t
    simp [ctxPut]

/-- Witness of C5: storing "hi" under session "s" in the empty store and
reading it back. -/
theorem store_contract_witness :
    ctxGet (ctxPut [] (("s").data) (("hi").data)) (("s").data) = some (("hi").data) :=
  store_contract.1 [] (("s").data) (("hi").data) (by decide)

/-- C6: the text normalization (lower-casing then deleting every whitespace
character) is idempotent. -/
theorem normalize_text_idem (s : Text) :
    normalize_text (normalize_text s) = normalize_text s := by
  unfold normalize_text
  have hmem : ∀ c ∈ ((s.map Char.toLower).filter (fun ch => !ch.isWhitespace)),
      Char.toLower c = c ∧ (!c.isWhitespace) = true := by
    intro c hc
    rw [List.mem_filter] at hc
    obtain ⟨hc1, hc2⟩ := hc
    rw [List.mem_map] at hc1
    obtain ⟨x, -, rfl⟩ := hc1
    exact ⟨toLower_idem x, hc2⟩
  rw [List.map_congr_left (fun c hc => (hmem c hc).1)]
  rw [List.map_id']
  exact List.filter_eq_self.mpr (fun c hc => (hmem c hc).2)

/-- C7: the echo-similarity test (length ratio above 0.7 together with
mutual substring containment) is symmetric in the two non-empty normalized
strings: swapping which one is the prior reply and which the current
utterance does not change the decision. -/
theorem echo_pred_symm (a b : Text) (ha : a ≠ []) (hb : b ≠ []) :
    echo_pred a b = echo_pred b a := by
  have h1 : (7 * max b.length a.length < 10 * min b.length a.length)
      = (7 * max a.length b.length < 10 * min a.length b.length) := by
    rw [Nat.max_comm, Nat.min_comm]
  have h2 : (a <:+: b ∨ b <:+: a) = (b <:+: a ∨ a <:+: b) := propext or_comm
  simp only [echo_pred, len_ratio_gt, h1, h2]

/-- Witness of C7 on the non-empty normalized strings "ab" and "abc". -/
theorem echo_pred_symm_witness :
    echo_pred (("ab").data) (("abc").data) = echo_pred (("abc").data) (("ab").data) :=
  echo_pred_symm (("ab").data) (("abc").data) (by decide) (by decide)

/-- C8: a request failing before reply generation — a transcription
exception, a transcription result without text, or an empty transcript —
returns a stage-identifying error and leaves the session context store
exactly as it was. -/
theorem prefilter_failure_preserves_store (st : Store) (llm tts : Except Text Text)
    (flag sid e : Text) :
    voice_chat st (.error e) llm tts flag sid
        = (.error ⟨500, ("STT failed: ").data ++ e⟩, st)
    ∧ voice_chat st (.ok none) llm tts flag sid
        = (.error ⟨500, ("STT result has no text").data⟩, st)
    ∧ voice_chat st (.ok (some [])) llm tts flag sid
        = (.error ⟨500, ("STT result has no text").data⟩, st) :=
  ⟨rfl, rfl, by simp [voice_chat]⟩

/-- C9 counterexample: in scenario B (prior reply "The weather today is
sunny and warm", utterance "sunny and warm") the normalized lengths are 12
and 29, so the length ratio computed by the filter is 12/29, not the 14/33
stated by the claim. -/
theorem scenarioB_ratio_counterexample :
    (normalize_text (pyStrip (("sunny and warm").data))).length = 12
    ∧ (normalize_text (("The weather today is sunny and warm").data)).length = 29
    ∧ ¬ ((min (normalize_text (("The weather today is sunny and warm").data)).length
            (normalize_text (pyStrip (("sunny and warm").data))).length : ℚ) /
         (max (normalize_text (("The weather today is sunny and warm").data)).length
            (normalize_text (pyStrip (("sunny and warm").data))).length : ℚ)
        = (14 : ℚ) / 33) := by
  have h1 : (normalize_text (pyStrip (("sunny and warm").data))).length = 12 := by decide
  have h2 : (normalize_text (("The weather today is sunny and warm").data)).length = 29 := by
    decide
  refine ⟨h1, h2, ?_⟩
  rw [h1, h2]
  norm_num

/-- C9 amended: in scenario B the normalized utterance is a substring of
the normalized prior reply, the length ratio equals 12/29 (below 0.7), and
the turn is not rejected: it falls through to reply generation. -/
theorem scenarioB_amended :
    normalize_text (pyStrip (("sunny and warm").data)) <:+:
        normalize_text (("The weather today is sunny and warm").data)
    ∧ ¬ ((7 : ℚ) / 10 <
          (min (normalize_text (("The weather today is sunny and warm").data)).length
              (normalize_text (pyStrip (("sunny and warm").data))).length : ℚ) /
          (max (normalize_text (("The weather today is sunny and warm").data)).length
              (normalize_text (pyStrip (("sunny and warm").data))).length : ℚ))
    ∧ filter_reject [((("sess").data), (("The weather today is sunny and warm").data))]
        (("sess").data) (("sunny and warm").data) = false
    ∧ ∀ llm tts : Except Text Text,
        voice_chat [((("sess").data), (("The weather today is sunny and warm").data))]
            (.ok (some (("sunny and warm").data))) llm tts (("true").data) (("sess").data)
          = generation [((("sess").data), (("The weather today is sunny and warm").data))]
              (("sunny and warm").data) llm tts (("sess").data) := by
  refine ⟨by decide, ?_, by decide, ?_⟩
  · have h1 : (normalize_text (pyStrip (("sunny and warm").data))).length = 12 := by decide
    have h2 : (normalize_text (("The weather today is sunny and warm").data)).length = 29 := by
      decide
    rw [h1, h2]
    norm_num
  · intro llm tts
    rw [voice_chat_ok _ _ llm tts _ _ (by decide), if_neg (by decide)]

/-- C10: when reply generation succeeds for a non-empty session identifier
but speech synthesis then fails, the request returns an error while the
session context store has already been overwritten with the new reply and
is not rolled back: a later turn in the session sees a reply whose audio
the caller never received. -/
theorem tts_failure_keeps_new_reply (st : Store) (flag sid u reply e : Text)
    (hu : u ≠ []) (hsid : sid ≠ [])
    (hpass : ¬(pyLower flag = ("true").data ∧ filter_reject st sid u = true)) :
    voice_chat st (.ok (some u)) (.ok reply) (.error e) flag sid
        = (.error ⟨500, ("TTS failed: ").data ++ e⟩, ctxPut st sid reply)
    ∧ ctxGet (ctxPut st sid reply) sid = some reply := by
  refine ⟨?_, ctxGet_ctxPut st sid reply hsid⟩
  rw [voice_chat_ok st u (.ok reply) (.error e) flag sid hu, if_neg hpass]
  rfl

/-- Witness of C10: a non-interruption turn in session "s" whose reply
generation yields "the reply" and whose speech synthesis raises "boom". -/
theorem tts_failure_keeps_new_reply_witness :
    voice_chat [] (.ok (some (("hello").data))) (.ok (("the reply").data))
        (.error (("boom").data)) (("false").data) (("s").data)
      = (.error ⟨500, ("TTS failed: ").data ++ ("boom").data⟩,
          ctxPut [] (("s").data) (("the reply").data)) :=
  (tts_failure_keeps_new_reply [] (("false").data) (("s").data) (("hello").data)
      (("the reply").data) (("boom").data)
      (by decide) (by decide) (by decide)).1

end VoiceChat
